import Mathlib

/-!
Shallow embedding of `src/circuitbreaker.py` (kavishme/circuitbreaker_py).

Modelling choices:
- `datetime.utcnow()` is modelled by an explicit `now : Int` parameter
  (seconds); `timedelta(seconds=t)` is the integer `t`, and
  `total_seconds()` is the identity on this integer model of time.
- Python exceptions raised by the wrapped function are modelled by an
  error-class identifier `Nat`; the `except self._expected_exception`
  instance check is the predicate field `expected_exception : Nat → Bool`.
- A call to the wrapped function is modelled by its outcome
  (`CallResult`): what the function would do if invoked.  `call` returns
  the updated breaker, a `Bool` recording whether the wrapped function
  was actually invoked, and the observable outcome (`CallOutcome`):
  `rejected` stands for `raise CircuitBreakerError(self)`, `raised e` for
  the re-raised (or uncaught) exception `e`, `ok v` for a normal return.
- Python attribute access in `CircuitBreakerError.__str__` is modelled by
  a string-keyed lookup, so that the misspelled attribute name in the
  source is represented faithfully.
- Breaker identity (for the registry) is modelled by a `Nat` instance id
  resolved through a store `heap : Nat → CircuitBreaker`; returning the
  same id is returning the same instance.
-/

/-- The three state constants `STATE_CLOSED`, `STATE_OPEN`, `STATE_HALF_OPEN`. -/
inductive BState where
  | closed
  | opened
  | halfOpen
deriving DecidableEq, Repr

/-- The mutable fields of a `CircuitBreaker` object (leading underscores
dropped): classifier `_expected_exception`, `_failure_count`,
`_failure_threshold`, `_recover_timeout`, `_state`, `_opened`, `_name`. -/
structure CircuitBreaker where
  expected_exception : Nat → Bool
  failure_count : Nat
  failure_threshold : Int
  recover_timeout : Int
  state : BState
  opened : Int
  name : String

/-- Embeds `CircuitBreaker.__init__`.  The constructor body contains no
validation and no `raise`, so as a fallible Python call it always
succeeds; `now` is the `datetime.utcnow()` read for `_opened`. -/
def CircuitBreaker.init (expected : Nat → Bool) (failure_threshold : Int)
    (recover_timeout : Int) (nm : String) (now : Int) :
    Except String CircuitBreaker :=
  Except.ok
    { expected_exception := expected
      failure_count := 0
      failure_threshold := failure_threshold
      recover_timeout := recover_timeout
      state := BState.closed
      opened := now
      name := nm }

/-- Embeds the property `open_until = self._opened + timedelta(seconds=self._recover_timeout)`. -/
def CircuitBreaker.open_until (b : CircuitBreaker) : Int :=
  b.opened + b.recover_timeout

/-- Embeds the property `open_remaining = (self.open_until - datetime.utcnow()).total_seconds()`. -/
def CircuitBreaker.open_remaining (b : CircuitBreaker) (now : Int) : Int :=
  b.open_until - now

/-- Embeds `CircuitBreaker.open` (the name `open` is a Lean keyword):
`self._state = STATE_OPEN; self._opened = datetime.utcnow()`. -/
def openBreaker (b : CircuitBreaker) (now : Int) : CircuitBreaker :=
  { b with state := BState.opened, opened := now }

/-- Embeds `CircuitBreaker.close`:
`self._state = STATE_CLOSED; self._failure_count = 0`. -/
def CircuitBreaker.close (b : CircuitBreaker) : CircuitBreaker :=
  { b with state := BState.closed, failure_count := 0 }

/-- Embeds `CircuitBreaker.__is_closed`: if the state is OPEN and
`open_remaining <= 0`, flip to HALF_OPEN and return `True`; otherwise
return whether the state is CLOSED.  Returns the (possibly mutated)
breaker together with the boolean. -/
def CircuitBreaker.is_closed (b : CircuitBreaker) (now : Int) :
    CircuitBreaker × Bool :=
  if b.state = BState.opened ∧ b.open_remaining now ≤ 0 then
    ({ b with state := BState.halfOpen }, true)
  else
    (b, decide (b.state = BState.closed))

/-- Embeds `CircuitBreaker.__failure`: increment `_failure_count` and call
`open()` when the new count has reached `_failure_threshold`. -/
def CircuitBreaker.failure (b : CircuitBreaker) (now : Int) : CircuitBreaker :=
  let b1 := { b with failure_count := b.failure_count + 1 }
  if (b1.failure_count : Int) ≥ b1.failure_threshold then openBreaker b1 now
  else b1

/-- Embeds `CircuitBreaker.__success`, which just calls `close()`. -/
def CircuitBreaker.success (b : CircuitBreaker) : CircuitBreaker :=
  b.close

/-- Outcome of the wrapped function, had it been invoked. -/
inductive CallResult (α : Type) where
  | ok (v : α)
  | err (e : Nat)
deriving DecidableEq, Repr

/-- What `CircuitBreaker.call` does, as seen by the caller. -/
inductive CallOutcome (α : Type) where
  | rejected
  | raised (e : Nat)
  | ok (v : α)
deriving DecidableEq, Repr

/-- Embeds `CircuitBreaker.call`: gate through `__is_closed` (raising
`CircuitBreakerError` when it returns `False`), invoke the function,
record a failure for exceptions caught by `except self._expected_exception`
and re-raise them, propagate other exceptions untouched, and record a
success on normal return.  The middle component records whether the
wrapped function was invoked. -/
def CircuitBreaker.call {α : Type} (b : CircuitBreaker) (now : Int)
    (res : CallResult α) : CircuitBreaker × Bool × CallOutcome α :=
  let g := b.is_closed now
  if g.2 = false then
    (g.1, false, CallOutcome.rejected)
  else
    match res with
    | CallResult.err e =>
        if g.1.expected_exception e = true then
          (g.1.failure now, true, CallOutcome.raised e)
        else
          (g.1, true, CallOutcome.raised e)
    | CallResult.ok v => (g.1.success, true, CallOutcome.ok v)

/-- Runs a sequence of calls through `call`, threading the breaker and
collecting each call's (invoked, outcome) pair. -/
def run_calls (b : CircuitBreaker) :
    List (Int × CallResult Unit) → CircuitBreaker × List (Bool × CallOutcome Unit)
  | [] => (b, [])
  | (t, r) :: rest =>
      let s := b.call t r
      let tail := run_calls s.1 rest
      (tail.1, (s.2.1, s.2.2) :: tail.2)

/-- Runs a sequence of calls whose wrapped function always raises the
classified-by-default error class `0`, at the given sequence of times. -/
def runFailures (b : CircuitBreaker) : List Int → CircuitBreaker
  | [] => b
  | t :: ts => runFailures ((b.call t (CallResult.err 0 : CallResult Unit)).1) ts

/-- Embeds a `CircuitBreakerError` object: `__init__` stores the breaker
under the attribute `_circuit_breaker`. -/
structure CircuitBreakerError where
  circuit_breaker : CircuitBreaker

/-- Python attribute lookup on a `CircuitBreakerError` instance: the only
breaker-valued attribute ever assigned is `_circuit_breaker`; any other
name raises `AttributeError` (modelled as `none`). -/
def CircuitBreakerError.getattr (e : CircuitBreakerError) (attr : String) :
    Option CircuitBreaker :=
  if attr = "_circuit_breaker" then some e.circuit_breaker else none

/-- Embeds `CircuitBreakerError.__str__`.  The `%` tuple is evaluated left
to right; the attribute names are exactly those written in the source,
including the misspelling `_circuiit_breaker` in the second operand.
`round` on the integer model of `open_remaining` is the identity. -/
def CircuitBreakerError.render (e : CircuitBreakerError) (now : Int) :
    Except String String :=
  match e.getattr "_circuit_breaker" with
  | none => Except.error "AttributeError"
  | some b1 =>
    match e.getattr "_circuiit_breaker" with
    | none => Except.error "AttributeError: _circuiit_breaker"
    | some b2 =>
      match e.getattr "_circuit_breaker", e.getattr "_circuit_breaker" with
      | some b3, some b4 =>
          Except.ok ("CIRCUIT \"" ++ b1.name ++ "\" OPEN until "
            ++ toString b2.open_until ++ " (" ++ toString b3.failure_count
            ++ " failures, " ++ toString (b4.open_remaining now)
            ++ " sec remaining)")
      | _, _ => Except.error "AttributeError"

/-- Embeds the class attribute `CircuitBreakerMonitor.circuit_breakers`, a
dict from breaker name to breaker instance; instances are ids resolved
through a separate store. -/
structure Monitor where
  circuit_breakers : List (String × Nat)

/-- Embeds `CircuitBreakerMonitor.register`: dict assignment
`cls.circuit_breakers[circuit_breaker.name] = circuit_breaker` (existing
entry for the name is overwritten). -/
def Monitor.register (m : Monitor) (nm : String) (cb : Nat) : Monitor :=
  ⟨(nm, cb) :: m.circuit_breakers.filter (fun p => p.1 ≠ nm)⟩

/-- Embeds `CircuitBreakerMonitor.get`: `cls.circuit_breakers.get(name)`. -/
def Monitor.get (m : Monitor) (nm : String) : Option Nat :=
  (m.circuit_breakers.find? (fun p => p.1 == nm)).map Prod.snd

/-- Embeds `CircuitBreakerMonitor.get_circuits`: `cls.circuit_breakers.values()`. -/
def Monitor.get_circuits (m : Monitor) : List Nat :=
  m.circuit_breakers.map Prod.snd

/-- Embeds `CircuitBreakerMonitor.get_open`: the circuits whose `state is STATE_OPEN`. -/
def Monitor.get_open (m : Monitor) (heap : Nat → CircuitBreaker) : List Nat :=
  m.get_circuits.filter (fun i => decide ((heap i).state = BState.opened))

/-- Embeds `CircuitBreakerMonitor.all_closed`: `False` when
`list(cls.get_open())` is non-empty, else `True`. -/
def Monitor.all_closed (m : Monitor) (heap : Nat → CircuitBreaker) : Bool :=
  if m.get_open heap = [] then true else false

/-- Helper: when the gate `__is_closed` answers `false`, it has not
mutated the breaker, so a rejected call leaves the breaker unchanged. -/
theorem is_closed_false_frame (b : CircuitBreaker) (now : Int)
    (h : (b.is_closed now).2 = false) : (b.is_closed now).1 = b := by
  unfold CircuitBreaker.is_closed at h ⊢
  by_cases hc : b.state = BState.opened ∧ b.open_remaining now ≤ 0
  · simp [hc] at h
  · simp [hc]

/-- C2: while the breaker is Open and `now < openedAt + recoveryTimeout`,
`call` rejects: it raises `CircuitBreakerError`, never invokes the wrapped
function, and leaves state, failure count and `openedAt` (the whole
breaker) unchanged. -/
theorem open_rejects_before_timeout {α : Type} (b : CircuitBreaker)
    (now : Int) (res : CallResult α)
    (hs : b.state = BState.opened)
    (ht : now < b.opened + b.recover_timeout) :
    b.call now res = (b, false, CallOutcome.rejected) := by
  have hrem : ¬ b.open_remaining now ≤ 0 := by
    unfold CircuitBreaker.open_remaining CircuitBreaker.open_until
    omega
  unfold CircuitBreaker.call CircuitBreaker.is_closed
  simp [hs, hrem]

/-- C2 witness: an Open breaker with `openedAt = 0`, timeout 30, queried
at `now = 10` rejects the call without invoking the function. -/
theorem open_rejects_before_timeout_witness :
    (let b : CircuitBreaker :=
      { expected_exception := fun _ => true, failure_count := 5,
        failure_threshold := 5, recover_timeout := 30,
        state := BState.opened, opened := 0, name := "cb" }
     b.call 10 (CallResult.ok ()) = (b, false, CallOutcome.rejected)) :=
  open_rejects_before_timeout _ 10 (CallResult.ok ()) rfl (by decide)

/-- C3: once `now ≥ openedAt + recoveryTimeout`, a call on an Open breaker
is allowed through: the gate flips the state to HalfOpen before the
wrapped function runs, and `call` does invoke the function. -/
theorem open_admits_after_timeout_as_halfOpen {α : Type} (b : CircuitBreaker)
    (now : Int) (res : CallResult α)
    (hs : b.state = BState.opened)
    (ht : b.opened + b.recover_timeout ≤ now) :
    b.is_closed now = ({ b with state := BState.halfOpen }, true)
      ∧ (b.call now res).2.1 = true := by
  have hrem : b.open_remaining now ≤ 0 := by
    unfold CircuitBreaker.open_remaining CircuitBreaker.open_until
    omega
  have hgate : b.is_closed now = ({ b with state := BState.halfOpen }, true) := by
    unfold CircuitBreaker.is_closed
    simp [hs, hrem]
  refine ⟨hgate, ?_⟩
  unfold CircuitBreaker.call
  rw [hgate]
  cases res with
  | ok v => simp
  | err e => by_cases hce : b.expected_exception e = true <;> simp [hce]

/-- C3 witness: an Open breaker with `openedAt = 0`, timeout 30, called at
`now = 30` flips to HalfOpen at the gate and invokes the function. -/
theorem open_admits_after_timeout_as_halfOpen_witness :
    (let b : CircuitBreaker :=
      { expected_exception := fun _ => true, failure_count := 5,
        failure_threshold := 5, recover_timeout := 30,
        state := BState.opened, opened := 0, name := "cb" }
     b.is_closed 30 = ({ b with state := BState.halfOpen }, true)
       ∧ (b.call 30 (CallResult.ok ())).2.1 = true) :=
  open_admits_after_timeout_as_halfOpen _ 30 (CallResult.ok ()) rfl (by decide)

/-- C10: a breaker that is HalfOpen at the start of a call sequence through
`call` rejects every call without invoking the wrapped function and never
changes, however much time elapses between the calls. -/
theorem halfOpen_sticky_under_execute (b : CircuitBreaker)
    (cs : List (Int × CallResult Unit))
    (hs : b.state = BState.halfOpen) :
    (run_calls b cs).1 = b
      ∧ (run_calls b cs).2 = cs.map (fun _ => (false, CallOutcome.rejected)) := by
  induction cs with
  | nil => simp [run_calls]
  | cons c rest ih =>
      obtain ⟨t, r⟩ := c
      have hone : b.call t r = (b, false, CallOutcome.rejected) := by
        unfold CircuitBreaker.call CircuitBreaker.is_closed
        simp [hs]
      simp [run_calls, hone, ih]

/-- C10 witness: a concrete HalfOpen breaker, hit at times 0 and 1000000
(one call would succeed, one would fail), stays HalfOpen and rejects both
calls without invoking the function. -/
theorem halfOpen_sticky_under_execute_witness :
    (let b : CircuitBreaker :=
      { expected_exception := fun _ => true, failure_count := 1,
        failure_threshold := 5, recover_timeout := 30,
        state := BState.halfOpen, opened := 0, name := "cb" }
     (run_calls b [(0, CallResult.ok ()), (1000000, CallResult.err 0)]).1 = b
       ∧ (run_calls b [(0, CallResult.ok ()), (1000000, CallResult.err 0)]).2
           = [(false, CallOutcome.rejected), (false, CallOutcome.rejected)]) :=
  halfOpen_sticky_under_execute _
    [(0, CallResult.ok ()), (1000000, CallResult.err 0)] rfl

/-- C4 (code bug): rendering a `CircuitBreakerError` never produces the
message with the four values; `__str__` reads the misspelled attribute
`_circuiit_breaker`, which is never assigned, so every rendering raises
`AttributeError`. -/
theorem cbError_render_always_fails (e : CircuitBreakerError) (now : Int) :
    e.render now = Except.error "AttributeError: _circuiit_breaker" := rfl

/-- C5 counterexample: constructing a breaker with `failure_threshold = 0`
and `recover_timeout = -5` does not raise — `__init__` performs no
validation and returns a normally-configured breaker. -/
theorem init_accepts_nonpositive_threshold :
    CircuitBreaker.init (fun _ => true) 0 (-5) "cb" 0
      = Except.ok
          { expected_exception := fun _ => true, failure_count := 0,
            failure_threshold := 0, recover_timeout := -5,
            state := BState.closed, opened := 0, name := "cb" } := rfl

/-- C5 amended: construction never fails, whatever the configuration;
`__init__` just stores the arguments (no fail-fast validation exists in
the source). -/
theorem init_never_fails (cls : Nat → Bool) (ft rt : Int) (nm : String)
    (now : Int) :
    CircuitBreaker.init cls ft rt nm now
      = Except.ok
          { expected_exception := cls, failure_count := 0,
            failure_threshold := ft, recover_timeout := rt,
            state := BState.closed, opened := now, name := nm } := rfl

/-- Helper: characterization of `__failure` with the intermediate
assignment inlined and the threshold comparison in `≤`-normal form. -/
theorem failure_spec (b : CircuitBreaker) (now : Int) :
    b.failure now =
      if b.failure_threshold ≤ (b.failure_count : Int) + 1 then
        { b with failure_count := b.failure_count + 1,
                 state := BState.opened, opened := now }
      else { b with failure_count := b.failure_count + 1 } := by
  simp only [CircuitBreaker.failure, openBreaker, ge_iff_le, Nat.cast_add,
    Nat.cast_one]

/-- C7: the failure counter is reset to 0 exactly on transitions into
Closed: `close` (used by `__success` and as forceClose) sets state Closed
and count 0; `open` and the gate's Open-to-HalfOpen flip leave the count
untouched; `__failure` strictly increments it (never resets); and a
successful `call` either ends Closed with count 0 or was rejected. -/
theorem failure_count_reset_exactly_on_close (b : CircuitBreaker) (now : Int) :
    (b.close.state = BState.closed ∧ b.close.failure_count = 0)
    ∧ ((openBreaker b now).state = BState.opened
        ∧ (openBreaker b now).failure_count = b.failure_count)
    ∧ (b.is_closed now).1.failure_count = b.failure_count
    ∧ (b.failure now).failure_count = b.failure_count + 1
    ∧ (((b.call now (CallResult.ok () : CallResult Unit)).1.state = BState.closed
          ∧ (b.call now (CallResult.ok () : CallResult Unit)).1.failure_count = 0)
        ∨ (b.call now (CallResult.ok () : CallResult Unit)).2.2
            = CallOutcome.rejected) := by
  refine ⟨⟨rfl, rfl⟩, ⟨rfl, rfl⟩, ?_, ?_, ?_⟩
  · unfold CircuitBreaker.is_closed
    by_cases hc : b.state = BState.opened ∧ b.open_remaining now ≤ 0 <;> simp [hc]
  · rw [failure_spec]
    by_cases hth : b.failure_threshold ≤ (b.failure_count : Int) + 1
    · rw [if_pos hth]
    · rw [if_neg hth]
  · unfold CircuitBreaker.call
    by_cases hg : (b.is_closed now).2 = false
    · simp [hg]
    · simp [hg, CircuitBreaker.success, CircuitBreaker.close]

/-- C9: after `register` the registry's `get` under the breaker's name
returns that very instance (the same id, hence the same object), and
`all_closed` is `false` exactly when some registered breaker currently
has state Open. -/
theorem monitor_register_get_and_all_closed (m : Monitor)
    (heap : Nat → CircuitBreaker) (nm : String) (cb : Nat) :
    (m.register nm cb).get nm = some cb
    ∧ (m.all_closed heap = false
        ↔ ∃ i ∈ m.get_circuits, (heap i).state = BState.opened) := by
  constructor
  · simp [Monitor.register, Monitor.get]
  · constructor
    · intro h
      by_cases hnil : m.get_open heap = []
      · simp [Monitor.all_closed, hnil] at h
      · obtain ⟨i, hi⟩ := List.exists_mem_of_ne_nil _ hnil
        rw [Monitor.get_open, List.mem_filter] at hi
        exact ⟨i, hi.1, by simpa using hi.2⟩
    · rintro ⟨i, hmem, hst⟩
      have hin : i ∈ m.get_open heap := by
        rw [Monitor.get_open, List.mem_filter]
        exact ⟨hmem, by simpa using hst⟩
      have hne : m.get_open heap ≠ [] := by
        intro hn
        rw [hn] at hin
        exact List.not_mem_nil i hin
      simp [Monitor.all_closed, hne]

/-- C1 counterexample: a breaker force-opened with failure count 0 and
threshold 5, whose trial call (admitted once the timeout has elapsed, so
the failure happens while HalfOpen) raises a classified error, does NOT
return to Open: the incremented count 1 is below the threshold, so the
state stays HalfOpen and `openedAt` keeps its old value 0 instead of the
failure time 10. -/
theorem halfOpen_trial_failure_not_reopened_below_threshold :
    (let b : CircuitBreaker :=
      { expected_exception := fun _ => true, failure_count := 0,
        failure_threshold := 5, recover_timeout := 10,
        state := BState.opened, opened := 0, name := "cb" }
     b.expected_exception 0 = true
       ∧ ((b.failure_count : Int) + 1 < b.failure_threshold)
       ∧ (b.call 10 (CallResult.err 0 : CallResult Unit)).2.1 = true
       ∧ (b.call 10 (CallResult.err 0 : CallResult Unit)).2.2
           = CallOutcome.raised 0
       ∧ (b.call 10 (CallResult.err 0 : CallResult Unit)).1.failure_count = 1
       ∧ (b.call 10 (CallResult.err 0 : CallResult Unit)).1.state
           = BState.halfOpen
       ∧ (b.call 10 (CallResult.err 0 : CallResult Unit)).1.opened = 0) := by
  decide

/-- C1 amended: a classified failure on the trial call (a call admitted
while Open once the timeout has elapsed, executing with the breaker
HalfOpen) increments the failure count and re-raises the error; it
transitions back to Open with `openedAt = now` exactly when the
incremented count reaches `failureThreshold`, and otherwise leaves the
breaker HalfOpen with `openedAt` unchanged.  (Automatic opening requires
the count to have reached the threshold already, so on that path the
re-open does happen; the threshold-independence claimed by the spec fails
only for breakers opened with a below-threshold count, e.g. by forceOpen.) -/
theorem halfOpen_trial_failure_reopens_iff_threshold (b : CircuitBreaker)
    (now : Int) (e : Nat)
    (hs : b.state = BState.opened)
    (ht : b.opened + b.recover_timeout ≤ now)
    (hc : b.expected_exception e = true) :
    (b.call now (CallResult.err e : CallResult Unit)).2.1 = true
    ∧ (b.call now (CallResult.err e : CallResult Unit)).2.2
        = CallOutcome.raised e
    ∧ (b.call now (CallResult.err e : CallResult Unit)).1.failure_count
        = b.failure_count + 1
    ∧ (((b.failure_count : Int) + 1 ≥ b.failure_threshold →
          (b.call now (CallResult.err e : CallResult Unit)).1.state
              = BState.opened
          ∧ (b.call now (CallResult.err e : CallResult Unit)).1.opened = now)
       ∧ ((b.failure_count : Int) + 1 < b.failure_threshold →
          (b.call now (CallResult.err e : CallResult Unit)).1.state
              = BState.halfOpen
          ∧ (b.call now (CallResult.err e : CallResult Unit)).1.opened
              = b.opened)) := by
  have hrem : b.open_remaining now ≤ 0 := by
    unfold CircuitBreaker.open_remaining CircuitBreaker.open_until
    omega
  have hgate : b.is_closed now = ({ b with state := BState.halfOpen }, true) := by
    unfold CircuitBreaker.is_closed
    simp [hs, hrem]
  have hcall : b.call now (CallResult.err e : CallResult Unit)
      = (({ b with state := BState.halfOpen } : CircuitBreaker).failure now,
         true, CallOutcome.raised e) := by
    unfold CircuitBreaker.call
    rw [hgate]
    simp [hc]
  rw [hcall, failure_spec]
  dsimp only
  by_cases hth : b.failure_threshold ≤ (b.failure_count : Int) + 1
  · rw [if_pos hth]
    exact ⟨rfl, rfl, rfl, fun _ => ⟨rfl, rfl⟩, fun hlt => absurd hth (by omega)⟩
  · rw [if_neg hth]
    exact ⟨rfl, rfl, rfl, fun hge => absurd hge (by omega), fun _ => ⟨rfl, rfl⟩⟩

/-- C1 amended witness: the force-opened breaker of the counterexample —
the trial failure is recorded (count 1), re-raised, and below the
threshold 5 the breaker stays HalfOpen with `openedAt` still 0. -/
theorem halfOpen_trial_failure_reopens_iff_threshold_witness :
    (let b : CircuitBreaker :=
      { expected_exception := fun _ => true, failure_count := 3,
        failure_threshold := 4, recover_timeout := 10,
        state := BState.opened, opened := 0, name := "cb" }
     (b.call 10 (CallResult.err 0 : CallResult Unit)).2.1 = true
     ∧ (b.call 10 (CallResult.err 0 : CallResult Unit)).2.2
         = CallOutcome.raised 0
     ∧ (b.call 10 (CallResult.err 0 : CallResult Unit)).1.failure_count
         = 3 + 1
     ∧ ((((3 : Nat) : Int) + 1 ≥ (4 : Int) →
           (b.call 10 (CallResult.err 0 : CallResult Unit)).1.state
               = BState.opened
           ∧ (b.call 10 (CallResult.err 0 : CallResult Unit)).1.opened = 10)
        ∧ (((3 : Nat) : Int) + 1 < (4 : Int) →
           (b.call 10 (CallResult.err 0 : CallResult Unit)).1.state
               = BState.halfOpen
           ∧ (b.call 10 (CallResult.err 0 : CallResult Unit)).1.opened
               = 0))) :=
  halfOpen_trial_failure_reopens_iff_threshold _ 10 0 rfl (by decide) rfl

/-- Helper: the gate `__is_closed` never changes the classifier, the
failure count or `openedAt`, and when the state is CLOSED it does not
mutate the breaker at all. -/
theorem is_closed_frame (b : CircuitBreaker) (now : Int) :
    (b.is_closed now).1.expected_exception = b.expected_exception
    ∧ (b.is_closed now).1.failure_count = b.failure_count
    ∧ (b.is_closed now).1.opened = b.opened
    ∧ (b.state = BState.closed → (b.is_closed now).1 = b) := by
  unfold CircuitBreaker.is_closed
  by_cases hc : b.state = BState.opened ∧ b.open_remaining now ≤ 0
  · rw [if_pos hc]
    refine ⟨rfl, rfl, rfl, fun h => ?_⟩
    rw [h] at hc
    exact absurd hc.1 (by decide)
  · rw [if_neg hc]
    exact ⟨rfl, rfl, rfl, fun _ => rfl⟩

/-- C6 counterexample to the frame part: an Open breaker whose timeout
has elapsed admits the call through the gate, flipping to HalfOpen; when
the wrapped function then raises an UNclassified error, the error
propagates and the count stays put, but the state HAS changed (from Open
to HalfOpen), contradicting "state ... unchanged". -/
theorem unclassified_error_can_flip_state_to_halfOpen :
    (let b : CircuitBreaker :=
      { expected_exception := fun e => e == 0, failure_count := 5,
        failure_threshold := 5, recover_timeout := 10,
        state := BState.opened, opened := 0, name := "cb" }
     b.expected_exception 1 = false
       ∧ (b.call 10 (CallResult.err 1 : CallResult Unit)).2.1 = true
       ∧ (b.call 10 (CallResult.err 1 : CallResult Unit)).2.2
           = CallOutcome.raised 1
       ∧ (b.call 10 (CallResult.err 1 : CallResult Unit)).1.failure_count
           = b.failure_count
       ∧ b.state = BState.opened
       ∧ (b.call 10 (CallResult.err 1 : CallResult Unit)).1.state
           = BState.halfOpen) := by
  decide

/-- C6 amended: when `call` admits the wrapped function and it raises an
error the classifier does not accept, the error propagates unchanged, the
failure count is neither incremented nor reset and `openedAt` is
untouched; the breaker is entirely unchanged whenever it was Closed, the
only possible change being the gate's own Open-to-HalfOpen flip, which
happens before and independently of the failure. -/
theorem unclassified_error_frame (b : CircuitBreaker) (now : Int) (e : Nat)
    (hadm : (b.is_closed now).2 = true)
    (hc : b.expected_exception e = false) :
    b.call now (CallResult.err e : CallResult Unit)
      = ((b.is_closed now).1, true, CallOutcome.raised e)
    ∧ (b.is_closed now).1.failure_count = b.failure_count
    ∧ (b.is_closed now).1.opened = b.opened
    ∧ (b.state = BState.closed → (b.is_closed now).1 = b) := by
  have hf := is_closed_frame b now
  refine ⟨?_, hf.2.1, hf.2.2.1, hf.2.2.2⟩
  unfold CircuitBreaker.call
  simp [hadm, hf.1, hc]

/-- C6 amended witness: a Closed breaker whose classifier only accepts
error class 0, hit with error class 1, propagates it with the whole
breaker unchanged. -/
theorem unclassified_error_frame_witness :
    (let b : CircuitBreaker :=
      { expected_exception := fun e => e == 0, failure_count := 2,
        failure_threshold := 5, recover_timeout := 30,
        state := BState.closed, opened := 0, name := "cb" }
     b.call 7 (CallResult.err 1 : CallResult Unit)
        = ((b.is_closed 7).1, true, CallOutcome.raised 1)
     ∧ (b.is_closed 7).1.failure_count = b.failure_count
     ∧ (b.is_closed 7).1.opened = b.opened
     ∧ (b.state = BState.closed → (b.is_closed 7).1 = b)) :=
  unclassified_error_frame _ 7 1 (by decide) rfl

/-- Helper: `runFailures` over an appended list runs the two parts in
sequence. -/
theorem runFailures_append (ts ts' : List Int) :
    ∀ b : CircuitBreaker,
      runFailures b (ts ++ ts') = runFailures (runFailures b ts) ts' := by
  induction ts with
  | nil => intro b; rfl
  | cons t ts ih => intro b; simp only [List.cons_append, runFailures]; exact ih _

/-- Helper: a classified failure on a Closed breaker whose incremented
count is still below the threshold just increments the count. -/
theorem call_failure_closed_below (b : CircuitBreaker) (t : Int)
    (hs : b.state = BState.closed)
    (hcl : b.expected_exception 0 = true)
    (hth : (b.failure_count : Int) + 1 < b.failure_threshold) :
    (b.call t (CallResult.err 0 : CallResult Unit)).1
      = { b with failure_count := b.failure_count + 1 } := by
  have hgate : b.is_closed t = (b, true) := by
    unfold CircuitBreaker.is_closed
    simp [hs]
  have hcall : b.call t (CallResult.err 0 : CallResult Unit)
      = (b.failure t, true, CallOutcome.raised 0) := by
    unfold CircuitBreaker.call
    rw [hgate]
    simp [hcl]
  rw [hcall, failure_spec,
    if_neg (by omega : ¬ b.failure_threshold ≤ (b.failure_count : Int) + 1)]

/-- Helper: a classified failure on a Closed breaker whose incremented
count reaches the threshold increments the count and opens the breaker
at the failure time. -/
theorem call_failure_closed_reach (b : CircuitBreaker) (t : Int)
    (hs : b.state = BState.closed)
    (hcl : b.expected_exception 0 = true)
    (hth : b.failure_threshold ≤ (b.failure_count : Int) + 1) :
    (b.call t (CallResult.err 0 : CallResult Unit)).1
      = { b with failure_count := b.failure_count + 1,
                 state := BState.opened, opened := t } := by
  have hgate : b.is_closed t = (b, true) := by
    unfold CircuitBreaker.is_closed
    simp [hs]
  have hcall : b.call t (CallResult.err 0 : CallResult Unit)
      = (b.failure t, true, CallOutcome.raised 0) := by
    unfold CircuitBreaker.call
    rw [hgate]
    simp [hcl]
  rw [hcall, failure_spec, if_pos hth]

/-- Helper: as long as the accumulated count stays strictly below the
threshold, a run of classified failures on a Closed breaker keeps it
Closed and adds the number of failures to the count. -/
theorem runFailures_below (ts : List Int) :
    ∀ b : CircuitBreaker, b.state = BState.closed →
      b.expected_exception 0 = true →
      ((b.failure_count : Int) + ts.length < b.failure_threshold) →
      runFailures b ts
        = { b with failure_count := b.failure_count + ts.length } := by
  induction ts with
  | nil =>
      intro b _ _ _
      rfl
  | cons t ts ih =>
      intro b hs hcl hth
      simp only [List.length_cons] at hth
      push_cast at hth
      have hstep := call_failure_closed_below b t hs hcl (by omega)
      rw [runFailures, hstep,
        ih { b with failure_count := b.failure_count + 1 } hs hcl
          (by push_cast; omega)]
      simp only [List.length_cons]
      have harith : b.failure_count + 1 + ts.length
          = b.failure_count + (ts.length + 1) := by omega
      exact congrArg (fun n => { b with failure_count := n }) harith

/-- C8: from a Closed breaker with zero failures, strictly fewer than
`failureThreshold` consecutive classified failures through `call` leave
it Closed with the count equal to the number of failures, while exactly
`failureThreshold` consecutive classified failures (the last one at time
`tl`) leave it Open with `openedAt = tl`, the time of the last failure. -/
theorem closed_opens_after_threshold_failures (b : CircuitBreaker)
    (ts : List Int) (tl : Int)
    (hs : b.state = BState.closed)
    (h0 : b.failure_count = 0)
    (hcl : b.expected_exception 0 = true)
    (hpos : 1 ≤ b.failure_threshold) :
    (((ts.length : Int) < b.failure_threshold →
        (runFailures b ts).state = BState.closed
        ∧ (runFailures b ts).failure_count = ts.length)
    ∧ ((ts.length : Int) + 1 = b.failure_threshold →
        (runFailures b (ts ++ [tl])).state = BState.opened
        ∧ (runFailures b (ts ++ [tl])).opened = tl
        ∧ (runFailures b (ts ++ [tl])).failure_count = ts.length + 1)) := by
  constructor
  · intro hlen
    rw [runFailures_below ts b hs hcl (by rw [h0]; push_cast; omega)]
    exact ⟨hs, by simp [h0]⟩
  · intro hlen
    rw [runFailures_append ts [tl] b,
      runFailures_below ts b hs hcl (by rw [h0]; push_cast; omega)]
    have hreach : b.failure_threshold ≤
        ((({ b with failure_count := b.failure_count + ts.length }
            : CircuitBreaker).failure_count : Int)) + 1 := by
      dsimp only
      push_cast
      omega
    have hstep := call_failure_closed_reach
      { b with failure_count := b.failure_count + ts.length } tl hs hcl hreach
    simp only [runFailures]
    rw [hstep]
    exact ⟨rfl, rfl, by simp [h0]⟩

/-- C8 witness: threshold 3 — two classified failures leave the breaker
Closed with count 2; the third, at time 7, opens it with `openedAt = 7`. -/
theorem closed_opens_after_threshold_failures_witness :
    (let b : CircuitBreaker :=
      { expected_exception := fun _ => true, failure_count := 0,
        failure_threshold := 3, recover_timeout := 30,
        state := BState.closed, opened := 0, name := "cb" }
     ((runFailures b [5, 6]).state = BState.closed
       ∧ (runFailures b [5, 6]).failure_count = [5, 6].length)
     ∧ ((runFailures b ([5, 6] ++ [7])).state = BState.opened
       ∧ (runFailures b ([5, 6] ++ [7])).opened = 7
       ∧ (runFailures b ([5, 6] ++ [7])).failure_count
           = [5, 6].length + 1)) := by
  refine ⟨?_, ?_⟩
  · exact (closed_opens_after_threshold_failures _ [5, 6] 7 rfl rfl rfl
      (by decide)).1 (by decide)
  · exact (closed_opens_after_threshold_failures _ [5, 6] 7 rfl rfl rfl
      (by decide)).2 (by decide)
